import Mathlib

/-!
Verification development for the goaxle keyring client (`keyring.go`).

The Go source is shallowly embedded here.  Conventions of the embedding:

* JSON documents decoded by the Go `encoding/json` package into
  `interface` values are modelled by the inductive type `Json`; JSON
  numbers are modelled exactly as rationals (the claims never exercise
  binary floating-point rounding, NaN or infinities).
* A response body (a byte slice in Go) is modelled as `Option Json`:
  `none` stands for bytes that are not a valid JSON document.
* The HTTP transport collaborator `doHttpRequest` is external to the
  file under verification; each operation therefore takes its result as
  an explicit argument of type `Except GoErr (Option Json)`.
* Go errors are modelled as strings (`GoErr`), following the
  `fmt.Errorf` texts of the source; the message texts produced inside
  the standard `encoding/json` library are abstracted to fixed strings.
* A Go runtime panic is modelled by a dedicated constructor of
  `GoOutcome`, distinct from an error return.
* Mutation of a `*KeyRing` in place is modelled by returning the new
  `KeyRing` value paired with the optional error.
-/

namespace GoAxle

/-- Go error values, as produced by `fmt.Errorf`. -/
abbrev GoErr := String

/-- JSON values, as decoded by `encoding/json` into untyped interface
values: null, booleans, numbers, strings, arrays and objects.  An object
is kept as the sequence of its key/value pairs; lookups below follow the
Go map semantics where a later duplicate key overwrites an earlier one. -/
inductive Json where
  | null : Json
  | bool (b : Bool) : Json
  | num (q : ℚ) : Json
  | str (s : String) : Json
  | arr (elems : List Json) : Json
  | obj (fields : List (String × Json)) : Json

/-- Whether a JSON value is an object (a Go `map[string]interface` value). -/
def Json.isObj : Json → Bool
  | Json.obj _ => true
  | _ => false

/-- Lookup of a key in a decoded JSON object.  A later duplicate key
overwrites an earlier one, as in the Go map produced by `encoding/json`. -/
def mapGet : List (String × Json) → String → Option Json
  | [], _ => none
  | (k, v) :: rest, key =>
    match mapGet rest key with
    | some w => some w
    | none => if k = key then some v else none

/-- The distinct entries of a decoded JSON object, each key associated
with its last value, mirroring the contents of the Go map. -/
def dedupFields : List (String × Json) → List (String × Json)
  | [] => []
  | (k, v) :: rest =>
    if (rest.map Prod.fst).contains k then dedupFields rest
    else (k, v) :: dedupFields rest

/-- The `KeyRing` struct of `keyring.go`.  `Identifier` carries the JSON
tag `-` (never encoded nor decoded); `CreatedAt` and `UpdatedAt` carry
`omitempty`; `axleAddress` and `createOnSave` are unexported and hence
invisible to `encoding/json`. -/
structure KeyRing where
  Identifier : String
  CreatedAt : ℚ
  UpdatedAt : ℚ
  axleAddress : String
  createOnSave : Bool
  deriving DecidableEq

/-- Modelled from the spec: the constant `VERSION_ENDPOINT` is declared in
another file of this repository, not provided under src.  The spec
describes every endpoint as relative to a configured base plus a version
cut, here the segment for version 1. -/
def VERSION_ENDPOINT : String := "/v1/"

namespace url

/-- Upper-case hexadecimal digit, as used by the Go escaping routine. -/
def hexUpperDigit (n : Nat) : Char :=
  if n < 10 then Char.ofNat (48 + n) else Char.ofNat (55 + n)

/-- Whether `net/url` escapes byte `b` in query-component mode: every
byte except ASCII letters, digits and the marks minus, underscore, dot
and tilde. -/
def shouldEscape (b : Nat) : Bool :=
  if (decide (65 ≤ b) && decide (b ≤ 90)) ||
     (decide (97 ≤ b) && decide (b ≤ 122)) ||
     (decide (48 ≤ b) && decide (b ≤ 57)) then false
  else if b = 45 || b = 95 || b = 46 || b = 126 then false
  else true

/-- Escape one byte the way `url.QueryEscape` does: unreserved bytes
stand for themselves, the space byte becomes plus, every other byte
becomes a percent escape with upper-case hexadecimal digits. -/
def escapeByte (b : Nat) : String :=
  if shouldEscape b then
    if b = 32 then "+"
    else String.mk [Char.ofNat 37, hexUpperDigit (b / 16), hexUpperDigit (b % 16)]
  else String.mk [Char.ofNat b]

/-- UTF-8 encoding of one code point, as the list of its byte values. -/
def utf8EncodeNat (c : Nat) : List Nat :=
  if c < 128 then [c]
  else if c < 2048 then [192 + c / 64, 128 + c % 64]
  else if c < 65536 then [224 + c / 4096, 128 + (c / 64) % 64, 128 + c % 64]
  else [240 + c / 262144, 128 + (c / 4096) % 64, 128 + (c / 64) % 64, 128 + c % 64]

/-- The UTF-8 bytes of a string, as Go ranges over them. -/
def stringBytes (s : String) : List Nat :=
  s.toList.foldr (fun c acc => utf8EncodeNat c.toNat ++ acc) []

/-- `url.QueryEscape` of the Go standard library: escape every byte of
the UTF-8 encoding of `s` in query-component mode. -/
def QueryEscape (s : String) : String :=
  (stringBytes s).foldr (fun b acc => escapeByte b ++ acc) ""

end url

/-- `NewKeyRing` of `keyring.go`: a locally constructed proxy, with
`createOnSave` set. -/
def NewKeyRing (axleAddress identifier : String) : KeyRing :=
  { Identifier := identifier
    CreatedAt := 0
    UpdatedAt := 0
    axleAddress := axleAddress
    createOnSave := true }

/-- The request address shared by `Save`, `GetKeyRing` and
`DeleteKeyRing`: base address, version cut, the keyring segment and the
query-escaped identifier. -/
def keyRingReqAddress (axleAddress identifier : String) : String :=
  axleAddress ++ VERSION_ENDPOINT ++ "keyring/" ++ url.QueryEscape identifier

/-- The request address built by `KeyRingLinkKey`. -/
def KeyRingLinkKeyReqAddress (axleAddress keyRingIdentifier keyIdentifier : String) : String :=
  axleAddress ++ VERSION_ENDPOINT ++ "keyring/" ++ url.QueryEscape keyRingIdentifier ++
    "/linkkey/" ++ url.QueryEscape keyIdentifier

/-- The request address built by `KeyRingUnlinkKey`. -/
def KeyRingUnlinkKeyReqAddress (axleAddress keyRingIdentifier keyIdentifier : String) : String :=
  axleAddress ++ VERSION_ENDPOINT ++ "keyring/" ++ url.QueryEscape keyRingIdentifier ++
    "/unlinkkey/" ++ url.QueryEscape keyIdentifier

/-- The request address built by `KeyRingKeys` (the key listing). -/
def KeyRingKeysReqAddress (axleAddress identifier : String) (fromT toT : Int) : String :=
  axleAddress ++ VERSION_ENDPOINT ++ "keyring/" ++ url.QueryEscape identifier ++
    "/keys?resolve=true&from=" ++ toString fromT ++ "&to=" ++ toString toT

/-- The request address built by `KeyRingStats`.  Note the parameter
order of the source: `forapi` is the fifth parameter, `forkey` the
sixth; the `forkey` query parameter, when present, is appended before
the `forapi` one. -/
def KeyRingStatsReqAddress (axleAddress keyRingIdentifier : String)
    (fromUnix toUnix : Int) (forapi forkey granularity : String) : String :=
  let base := axleAddress ++ VERSION_ENDPOINT ++ "keyring/" ++
    url.QueryEscape keyRingIdentifier ++ "/stats?from=" ++ toString fromUnix ++
    "&to=" ++ toString toUnix ++ "&granularity=" ++ granularity
  let withKey := if forkey ≠ "" then base ++ "&forkey=" ++ url.QueryEscape forkey else base
  if forapi ≠ "" then withKey ++ "&forapi=" ++ url.QueryEscape forapi else withKey

/-- The request address produced by `StatsForKey`: the source forwards
its `forkey` argument as the fifth positional argument of
`KeyRingStats` (the `forapi` parameter) and the empty string as the
sixth (the `forkey` parameter). -/
def StatsForKeyReqAddress (axleAddress identifier : String)
    (fromUnix toUnix : Int) (forkey granularity : String) : String :=
  KeyRingStatsReqAddress axleAddress identifier fromUnix toUnix forkey "" granularity

/-- The request address produced by `StatsForApi`: the source forwards
the empty string as the fifth positional argument of `KeyRingStats`
(the `forapi` parameter) and its `forapi` argument as the sixth (the
`forkey` parameter). -/
def StatsForApiReqAddress (axleAddress identifier : String)
    (fromUnix toUnix : Int) (forapi granularity : String) : String :=
  KeyRingStatsReqAddress axleAddress identifier fromUnix toUnix "" forapi granularity

/-- `json.Marshal` of a `KeyRing`: `Identifier` is skipped (tag `-`),
the two timestamps are emitted under their tags unless zero
(`omitempty`), the unexported fields are skipped. -/
def marshalKeyRing (k : KeyRing) : Json :=
  Json.obj ((if k.CreatedAt = 0 then [] else [("createdAt", Json.num k.CreatedAt)]) ++
            (if k.UpdatedAt = 0 then [] else [("updatedAt", Json.num k.UpdatedAt)]))

/-- The message of the `encoding/json` type error for a mistyped
timestamp field (abstracted text). -/
def decodeFieldErr (name : String) : GoErr :=
  "json: cannot unmarshal value into Go struct field KeyRing." ++ name ++ " of type float64"

/-- Keep the first decode error, as the `encoding/json` decoder does
when it saves an error and keeps going. -/
def keepFirstErr (e : Option GoErr) (msg : GoErr) : Option GoErr :=
  match e with
  | some e0 => some e0
  | none => some msg

/-- Decoding one JSON object entry into a `KeyRing`, following
`encoding/json`: the tag `createdAt` or `updatedAt` selects a timestamp
field, which accepts a number, ignores null, and records a type error
otherwise (decoding continues); any other key is ignored, in particular
`identifier` (the `Identifier` field has tag `-`). -/
def applyJsonField (acc : KeyRing × Option GoErr) (kv : String × Json) :
    KeyRing × Option GoErr :=
  if kv.1 = "createdAt" then
    match kv.2 with
    | Json.num q => ({ acc.1 with CreatedAt := q }, acc.2)
    | Json.null => acc
    | _ => (acc.1, keepFirstErr acc.2 (decodeFieldErr "createdAt"))
  else if kv.1 = "updatedAt" then
    match kv.2 with
    | Json.num q => ({ acc.1 with UpdatedAt := q }, acc.2)
    | Json.null => acc
    | _ => (acc.1, keepFirstErr acc.2 (decodeFieldErr "updatedAt"))
  else acc

/-- `json.Unmarshal` of a JSON value into an existing `KeyRing`:
an object is decoded entry by entry (with the saved-error semantics of
`encoding/json`), null is a no-op, and any other value is a type error
that leaves the target untouched. -/
def unmarshalKeyRingInto (j : Json) (k : KeyRing) : KeyRing × Option GoErr :=
  match j with
  | Json.obj fields => fields.foldl applyJsonField (k, none)
  | Json.null => (k, none)
  | _ => (k, some "json: cannot unmarshal value into Go value of type goaxle.KeyRing")

/-- `json.Unmarshal` of a response body into a
`map[string]interface` value: fails when the body is not valid JSON or
its top level is neither an object nor null; a null body yields the nil
map (no entries). -/
def unmarshalToMap : Option Json → Except GoErr (List (String × Json))
  | none => Except.error "invalid character in JSON document"
  | some (Json.obj fields) => Except.ok fields
  | some Json.null => Except.ok []
  | some _ => Except.error "json: cannot unmarshal value into Go value of type map"

/-- The descent loop of `populateKeyRingFromResponse`: follow
`detailsLocation` key by key, failing when a key is absent or its value
is not an object. -/
def navigateResponse : List (String × Json) → List String →
    Except GoErr (List (String × Json))
  | response, [] => Except.ok response
  | response, key :: rest =>
    match mapGet response key with
    | none => Except.error ("Response map did not contain expected key: " ++ key)
    | some v =>
      match v with
      | Json.obj fields => navigateResponse fields rest
      | _ => Except.error ("key " ++ key ++ " did not contain map")

/-- `populateKeyRingFromResponse` of `keyring.go`: decode the body into
a map, descend along `detailsLocation`, then re-encode the final
sub-object and decode it into the target `KeyRing`.  The returned pair
is the state of the target after the call together with the optional
error.  The re-encoding step goes through the Go map, so the final
decode sees each key once with its last value. -/
def populateKeyRingFromResponse (k : KeyRing) (body : Option Json)
    (detailsLocation : List String) : KeyRing × Option GoErr :=
  match unmarshalToMap body with
  | Except.error e => (k, some ("Unable to unmarshal response: " ++ e))
  | Except.ok response =>
    match navigateResponse response detailsLocation with
    | Except.error e => (k, some e)
    | Except.ok finalMap =>
      match unmarshalKeyRingInto (Json.obj (dedupFields finalMap)) k with
      | (k2, some e) => (k2, some ("Unable to decode keyring in response: " ++ e))
      | (k2, none) => (k2, none)

/-- The disabled-update error of `Save`. -/
def unsupportedUpdateError : GoErr := "Unable to update key rings, it\x27s not yet supported"

/-- `Save` of `keyring.go`.  The current clock reading (the millisecond
value the source takes from `time.Now`) and the transport result are
explicit arguments.  The source first overwrites `UpdatedAt` on the
receiver, marshals the entity (which cannot fail on this model), then
hard-fails when the proxy is not pending creation; otherwise it
performs the request, repopulates itself from the envelope at the
results key and clears `createOnSave`.  The dead alternate envelope
path at results, new is kept as in the source.  The flag read after the
timestamp write is written `k.createOnSave` here because the timestamp
update does not touch the flag. -/
def Save (k : KeyRing) (now : ℚ) (httpResult : Except GoErr (Option Json)) :
    KeyRing × Option GoErr :=
  if !k.createOnSave then ({ k with UpdatedAt := now }, some unsupportedUpdateError)
  else
    match httpResult with
    | Except.error e => ({ k with UpdatedAt := now }, some e)
    | Except.ok body =>
      match (if !k.createOnSave
          then populateKeyRingFromResponse { k with UpdatedAt := now } body ["results", "new"]
          else populateKeyRingFromResponse { k with UpdatedAt := now } body ["results"]) with
      | (k2, some e) => (k2, some e)
      | (k2, none) => ({ k2 with createOnSave := false }, none)

/-- `GetKeyRing` of `keyring.go`: build a fresh proxy for the requested
identifier, populate it from the envelope at the results key, then mark
it not pending. -/
def GetKeyRing (axleAddress identifier : String)
    (httpResult : Except GoErr (Option Json)) : Except GoErr KeyRing :=
  match httpResult with
  | Except.error e => Except.error e
  | Except.ok body =>
    match populateKeyRingFromResponse (NewKeyRing axleAddress identifier) body ["results"] with
    | (_, some e) => Except.error e
    | (keyRing, none) => Except.ok { keyRing with createOnSave := false }

/-- `DeleteKeyRing` of `keyring.go`: decode the body into a map, read
the results key, require a boolean, and fail when it is false. -/
def DeleteKeyRing (axleAddress identifier : String)
    (httpResult : Except GoErr (Option Json)) : Option GoErr :=
  let reqAddress := keyRingReqAddress axleAddress identifier
  match httpResult with
  | Except.error e => some e
  | Except.ok body =>
    match unmarshalToMap body with
    | Except.error e =>
      some ("Unable to unmarshal response from " ++ reqAddress ++ ": " ++ e)
    | Except.ok responseMap =>
      match mapGet responseMap "results" with
      | none => some ("Missing response from " ++ reqAddress)
      | some (Json.bool true) => none
      | some (Json.bool false) => some ("Delete of KeyRing at " ++ reqAddress ++ " failed")
      | some _ => some ("Unable to extract response object from " ++ reqAddress)

/-- Outcome of a Go function call: a normal return carrying a value, a
normal return carrying an error, or a runtime panic. -/
inductive GoOutcome (α : Type) where
  | ok (val : α) : GoOutcome α
  | err (msg : GoErr) : GoOutcome α
  | panicked (msg : String) : GoOutcome α

/-- The Go runtime message for a method call on a nil interface. -/
def nilPointerPanicMsg : String :=
  "runtime error: invalid memory address or nil pointer dereference"

/-- The per-entry loop of `KeyRings`: each map entry is decoded into a
fresh proxy for its key, which is then marked not pending; a decode
failure aborts the whole listing. -/
def keyRingsFromEntries (axleAddress : String) :
    List (String × Json) → Except GoErr (List KeyRing)
  | [] => Except.ok []
  | (identifier, value) :: rest =>
    match unmarshalKeyRingInto value (NewKeyRing axleAddress identifier) with
    | (_, some e) => Except.error ("Unable to decode keyring in response: " ++ e)
    | (keyring, none) =>
      match keyRingsFromEntries axleAddress rest with
      | Except.error e => Except.error e
      | Except.ok out => Except.ok ({ keyring with createOnSave := false } :: out)

/-- `KeyRings` of `keyring.go`.  After a successful decode of the body
into a map, the source reads the results key and type-asserts it to a
map; when the assertion fails it builds its error message by calling
the Error method of the earlier decode error, which is nil at that
point — a method call on a nil interface, hence a runtime panic rather
than an error return. -/
def KeyRings (axleAddress : String) (httpResult : Except GoErr (Option Json)) :
    GoOutcome (List KeyRing) :=
  match httpResult with
  | Except.error e => GoOutcome.err e
  | Except.ok body =>
    match unmarshalToMap body with
    | Except.error e => GoOutcome.err ("Unable to unmarshal response: " ++ e)
    | Except.ok response =>
      match mapGet response "results" with
      | some (Json.obj results) =>
        match keyRingsFromEntries axleAddress (dedupFields results) with
        | Except.error e => GoOutcome.err e
        | Except.ok out => GoOutcome.ok out
      | _ => GoOutcome.panicked nilPointerPanicMsg

/-- The zero value of the `KeyRing` struct, the target of a decode into
a fresh variable. -/
def zeroKeyRing : KeyRing :=
  { Identifier := ""
    CreatedAt := 0
    UpdatedAt := 0
    axleAddress := ""
    createOnSave := false }

/-- whether `pat` occurs at the head of the character list. -/
def charListStartsWith : List Char → List Char → Bool
  | _, [] => true
  | [], _ :: _ => false
  | c :: cs, p :: ps => c = p && charListStartsWith cs ps

/-- whether `pat` occurs anywhere inside the character list. -/
def charListHasSub : List Char → List Char → Bool
  | [], pat => pat.isEmpty
  | c :: cs, pat => charListStartsWith (c :: cs) pat || charListHasSub cs pat

/-- whether the string `pat` occurs as a contiguous substring of `s`. -/
def strHasSub (s pat : String) : Bool := charListHasSub s.toList pat.toList

/-!  Frame lemmas: the JSON decode paths never touch `Identifier`,
`axleAddress` or `createOnSave` of the target entity. -/

theorem applyJsonField_frame (acc : KeyRing × Option GoErr) (kv : String × Json) :
    (applyJsonField acc kv).1.Identifier = acc.1.Identifier ∧
    (applyJsonField acc kv).1.axleAddress = acc.1.axleAddress ∧
    (applyJsonField acc kv).1.createOnSave = acc.1.createOnSave := by
  unfold applyJsonField
  by_cases h1 : kv.1 = "createdAt"
  · simp only [h1, if_true]
    cases kv.2 <;> simp
  · by_cases h2 : kv.1 = "updatedAt"
    · simp only [h1, h2, if_true, if_false]
      cases kv.2 <;> simp
    · simp [h1, h2]

theorem foldl_applyJsonField_frame (fields : List (String × Json)) :
    ∀ acc : KeyRing × Option GoErr,
      (fields.foldl applyJsonField acc).1.Identifier = acc.1.Identifier ∧
      (fields.foldl applyJsonField acc).1.axleAddress = acc.1.axleAddress ∧
      (fields.foldl applyJsonField acc).1.createOnSave = acc.1.createOnSave := by
  induction fields with
  | nil => exact fun acc => ⟨rfl, rfl, rfl⟩
  | cons kv rest ih =>
    intro acc
    have h := applyJsonField_frame acc kv
    have h2 := ih (applyJsonField acc kv)
    simp only [List.foldl_cons]
    exact ⟨h2.1.trans h.1, h2.2.1.trans h.2.1, h2.2.2.trans h.2.2⟩

theorem unmarshalKeyRingInto_frame (j : Json) (k : KeyRing) :
    (unmarshalKeyRingInto j k).1.Identifier = k.Identifier ∧
    (unmarshalKeyRingInto j k).1.axleAddress = k.axleAddress ∧
    (unmarshalKeyRingInto j k).1.createOnSave = k.createOnSave := by
  cases j <;>
    first
      | exact ⟨rfl, rfl, rfl⟩
      | exact foldl_applyJsonField_frame _ (k, none)

theorem unmarshal_pair_frame {j : Json} {k k2 : KeyRing} {e2 : Option GoErr}
    (heq : unmarshalKeyRingInto j k = (k2, e2)) :
    k2.Identifier = k.Identifier ∧ k2.axleAddress = k.axleAddress ∧
    k2.createOnSave = k.createOnSave := by
  have h := unmarshalKeyRingInto_frame j k
  rw [heq] at h
  exact h

theorem populateKeyRingFromResponse_frame (k : KeyRing) (body : Option Json)
    (loc : List String) :
    (populateKeyRingFromResponse k body loc).1.Identifier = k.Identifier ∧
    (populateKeyRingFromResponse k body loc).1.axleAddress = k.axleAddress ∧
    (populateKeyRingFromResponse k body loc).1.createOnSave = k.createOnSave := by
  unfold populateKeyRingFromResponse
  split
  · exact ⟨rfl, rfl, rfl⟩
  · split
    · exact ⟨rfl, rfl, rfl⟩
    · split
      · next k2 e heq => exact unmarshal_pair_frame heq
      · next k2 heq => exact unmarshal_pair_frame heq

theorem navigateResponse_notMap (fields : List (String × Json)) (key : String)
    (rest : List String) (v : Json) (hv : mapGet fields key = some v)
    (hno : v.isObj = false) :
    navigateResponse fields (key :: rest) =
      Except.error ("key " ++ key ++ " did not contain map") := by
  unfold navigateResponse
  rw [hv]
  cases v <;> first | rfl | simp [Json.isObj] at hno

theorem keyRingsFromEntries_flag (a : String) (entries : List (String × Json)) :
    ∀ out, keyRingsFromEntries a entries = Except.ok out →
      ∀ kr ∈ out, kr.createOnSave = false := by
  induction entries with
  | nil =>
    intro out h kr hm
    unfold keyRingsFromEntries at h
    injection h with h'
    subst h'
    simp at hm
  | cons e rest ih =>
    intro out h kr hm
    obtain ⟨identifier, value⟩ := e
    unfold keyRingsFromEntries at h
    split at h
    · exact Except.noConfusion h
    · split at h
      · exact Except.noConfusion h
      · injection h with h'
        subst h'
        cases hm with
        | head => rfl
        | tail _ hm2 =>
          next out2 heq2 =>
            exact ih out2 heq2 kr hm2

theorem populate_pair_frame {k : KeyRing} {body : Option Json} {loc : List String}
    {k2 : KeyRing} {e2 : Option GoErr}
    (heq : populateKeyRingFromResponse k body loc = (k2, e2)) :
    k2.Identifier = k.Identifier ∧ k2.axleAddress = k.axleAddress ∧
    k2.createOnSave = k.createOnSave := by
  have hp := populateKeyRingFromResponse_frame k body loc
  rw [heq] at hp
  exact hp

theorem Save_frame (k : KeyRing) (now : ℚ) (httpResult : Except GoErr (Option Json)) :
    ((Save k now httpResult).1.Identifier = k.Identifier ∧
     (Save k now httpResult).1.axleAddress = k.axleAddress) ∧
    ((Save k now httpResult).2 ≠ none →
      (Save k now httpResult).1.createOnSave = k.createOnSave) := by
  unfold Save
  split
  · exact ⟨⟨rfl, rfl⟩, fun _ => rfl⟩
  · split
    · exact ⟨⟨rfl, rfl⟩, fun _ => rfl⟩
    · split
      · next k2 e heq =>
          exact ⟨⟨(populate_pair_frame heq).1, (populate_pair_frame heq).2.1⟩,
            fun _ => (populate_pair_frame heq).2.2⟩
      · next k2 heq =>
          exact ⟨⟨(populate_pair_frame heq).1, (populate_pair_frame heq).2.1⟩,
            fun h => absurd rfl h⟩

theorem Save_success_clears_flag (k : KeyRing) (now : ℚ)
    (httpResult : Except GoErr (Option Json)) :
    (Save k now httpResult).2 = none → (Save k now httpResult).1.createOnSave = false := by
  unfold Save
  split
  · intro h; exact Option.noConfusion h
  · split
    · intro h; exact Option.noConfusion h
    · split
      · intro h; exact Option.noConfusion h
      · intro _; rfl

theorem populate_of_navigate_error (k : KeyRing) (fields : List (String × Json))
    (loc : List String) (e : GoErr)
    (hn : navigateResponse fields loc = Except.error e) :
    populateKeyRingFromResponse k (some (Json.obj fields)) loc = (k, some e) := by
  unfold populateKeyRingFromResponse
  split
  · next e2 heq => exact absurd heq (by simp [unmarshalToMap])
  · next response heq =>
      have hres : response = fields := by
        simpa [unmarshalToMap] using heq.symm
      subst hres
      split
      · next e2 heq2 =>
          have h3 := hn.symm.trans heq2
          injection h3 with h4
          rw [h4]
      · next finalMap heq2 =>
          exact Except.noConfusion (hn.symm.trans heq2)

/-!  The claims. -/

/-- C1: evaluation of the stats URL builders at a failing input.  For
the non-empty key identifier mykey, `StatsForKey` builds a request URL
whose query carries a forapi parameter and no forkey parameter;
symmetrically `StatsForApi` carries forkey and no forapi.  The source
passes its filter argument to `KeyRingStats` in the swapped positional
slot, so the claimed behaviour — forkey for `StatsForKey`, forapi for
`StatsForApi` — fails on the code. -/
theorem c1_statsForKey_sends_forapi :
    StatsForKeyReqAddress "h" "ring" 0 0 "mykey" "minute" =
      "h/v1/keyring/ring/stats?from=0&to=0&granularity=minute&forapi=mykey" ∧
    strHasSub (StatsForKeyReqAddress "h" "ring" 0 0 "mykey" "minute") "forkey" = false ∧
    StatsForApiReqAddress "h" "ring" 0 0 "myapi" "minute" =
      "h/v1/keyring/ring/stats?from=0&to=0&granularity=minute&forkey=myapi" ∧
    strHasSub (StatsForApiReqAddress "h" "ring" 0 0 "myapi" "minute") "forapi" = false :=
  ⟨by decide, by decide, by decide, by decide⟩

/-- C2: the claim states that a malformed or shallow envelope is always
reported as a returned error and never crashes the caller.  At a body
that is valid JSON without a top-level results object, `KeyRings`
instead hits a runtime panic: the source builds the failure message by
calling the Error method of the earlier decode error, which is nil at
that point. -/
theorem c2_keyRings_bad_results_panics :
    KeyRings "h" (Except.ok (some (Json.obj [("other", Json.obj [])]))) =
      GoOutcome.panicked nilPointerPanicMsg ∧
    KeyRings "h" (Except.ok (some (Json.obj [("results", Json.num 5)]))) =
      GoOutcome.panicked nilPointerPanicMsg :=
  ⟨rfl, rfl⟩

/-- C3: on a proxy whose `createOnSave` flag is cleared, `Save` always
returns the unsupported-update error (and the state with only the
`UpdatedAt` stamp refreshed), for every clock value and every transport
behaviour: it never succeeds. -/
theorem c3_save_nonpending_always_fails (k : KeyRing) (now : ℚ)
    (httpResult : Except GoErr (Option Json)) (h : k.createOnSave = false) :
    Save k now httpResult = ({ k with UpdatedAt := now }, some unsupportedUpdateError) := by
  unfold Save
  rw [h]
  rfl

/-- Witness for C3 at a concrete non-pending proxy. -/
theorem c3_save_nonpending_always_fails_witness :
    Save ⟨"x", 0, 0, "a", false⟩ 5 (Except.ok none) =
      (⟨"x", 0, 5, "a", false⟩, some unsupportedUpdateError) :=
  c3_save_nonpending_always_fails ⟨"x", 0, 0, "a", false⟩ 5 (Except.ok none) rfl

/-- C4 counterexample: a failed `Save` call is not free of local
mutation — on a non-pending proxy the call returns an error, yet
`UpdatedAt` has been overwritten with the clock value taken at entry,
before the failure check. -/
theorem c4_failed_save_mutatesTimestamp :
    (Save ⟨"x", 0, 0, "a", false⟩ 5 (Except.error "network down")).2 ≠ none ∧
    (Save ⟨"x", 0, 0, "a", false⟩ 5 (Except.error "network down")).1.UpdatedAt ≠
      (⟨"x", 0, 0, "a", false⟩ : KeyRing).UpdatedAt :=
  ⟨by decide, by decide⟩

/-- C4 as amended: whenever `Save` returns an error, the proxy keeps
its `Identifier`, its `axleAddress` and its `createOnSave` flag exactly
as before the call; the timestamps are not restored (`UpdatedAt` is
overwritten at entry, and both timestamps may further be overwritten by
a partially decoded response). -/
theorem c4_save_error_preserves_identity_and_flag (k : KeyRing) (now : ℚ)
    (httpResult : Except GoErr (Option Json))
    (h : (Save k now httpResult).2 ≠ none) :
    (Save k now httpResult).1.Identifier = k.Identifier ∧
    (Save k now httpResult).1.axleAddress = k.axleAddress ∧
    (Save k now httpResult).1.createOnSave = k.createOnSave :=
  ⟨(Save_frame k now httpResult).1.1, (Save_frame k now httpResult).1.2,
    (Save_frame k now httpResult).2 h⟩

/-- Witness for the amended C4 at a concrete failing call. -/
theorem c4_save_error_preserves_identity_and_flag_witness :
    (Save ⟨"x", 0, 0, "a", false⟩ 7 (Except.ok none)).1.Identifier = "x" ∧
    (Save ⟨"x", 0, 0, "a", false⟩ 7 (Except.ok none)).1.axleAddress = "a" ∧
    (Save ⟨"x", 0, 0, "a", false⟩ 7 (Except.ok none)).1.createOnSave = false :=
  c4_save_error_preserves_identity_and_flag ⟨"x", 0, 0, "a", false⟩ 7 (Except.ok none)
    (by decide)

/-- C5 counterexample: the identifier with a space and a slash is not
encoded as the claimed path segment with a percent-twenty escape — the
source escapes with the query escaper, which turns a space into a plus
sign. -/
theorem c5_space_not_percent_twenty :
    keyRingReqAddress "h" "a b/c" ≠
      "h" ++ VERSION_ENDPOINT ++ "keyring/" ++ "a%20b%2Fc" := by decide

/-- C5 as amended: every request-URL builder escapes the identifier
with the query escaper of the Go standard library, which percent-encodes
reserved bytes with upper-case hexadecimal digits but encodes a space as
a plus sign: the identifier with a space and a slash yields the path
segment a+b%2Fc (not a%20b%2Fc). -/
theorem c5_urls_query_escape_identifiers :
    url.QueryEscape "a b/c" = "a+b%2Fc" ∧
    keyRingReqAddress "h" "a b/c" = "h/v1/keyring/a+b%2Fc" ∧
    KeyRingLinkKeyReqAddress "h" "a b/c" "k d" = "h/v1/keyring/a+b%2Fc/linkkey/k+d" ∧
    KeyRingUnlinkKeyReqAddress "h" "a b/c" "k d" = "h/v1/keyring/a+b%2Fc/unlinkkey/k+d" ∧
    KeyRingKeysReqAddress "h" "a b/c" 0 10 =
      "h/v1/keyring/a+b%2Fc/keys?resolve=true&from=0&to=10" ∧
    KeyRingStatsReqAddress "h" "a b/c" 0 10 "" "" "minute" =
      "h/v1/keyring/a+b%2Fc/stats?from=0&to=10&granularity=minute" :=
  ⟨by decide, by decide, by decide, by decide, by decide, by decide⟩

/-- C6: the pending-create lifecycle.  A locally constructed proxy
starts with `createOnSave` set; a proxy returned by `GetKeyRing` or
listed by `KeyRings` has it cleared; and a `Save` call that returns no
error leaves the proxy with the flag cleared. -/
theorem c6_pendingCreate_lifecycle :
    (∀ a i : String, (NewKeyRing a i).createOnSave = true) ∧
    (∀ (a i : String) (hr : Except GoErr (Option Json)) (kr : KeyRing),
      GetKeyRing a i hr = Except.ok kr → kr.createOnSave = false) ∧
    (∀ (a : String) (hr : Except GoErr (Option Json)) (krs : List KeyRing),
      KeyRings a hr = GoOutcome.ok krs → ∀ kr ∈ krs, kr.createOnSave = false) ∧
    (∀ (k : KeyRing) (now : ℚ) (hr : Except GoErr (Option Json)),
      (Save k now hr).2 = none → (Save k now hr).1.createOnSave = false) := by
  refine ⟨fun a i => rfl, ?_, ?_, Save_success_clears_flag⟩
  · intro a i hr kr h
    unfold GetKeyRing at h
    split at h
    · exact Except.noConfusion h
    · split at h
      · exact Except.noConfusion h
      · injection h with h2
        subst h2
        rfl
  · intro a hr krs h kr hm
    unfold KeyRings at h
    split at h
    · exact GoOutcome.noConfusion h
    · split at h
      · exact GoOutcome.noConfusion h
      · split at h
        · split at h
          · exact GoOutcome.noConfusion h
          · next out heq2 =>
              injection h with h2
              subst h2
              exact keyRingsFromEntries_flag _ _ _ heq2 kr hm
        · exact GoOutcome.noConfusion h

/-- Witness for C6, each conjunct instantiated at a concrete call. -/
theorem c6_pendingCreate_lifecycle_witness :
    (NewKeyRing "a" "x").createOnSave = true ∧
    (⟨"x", 0, 0, "a", false⟩ : KeyRing).createOnSave = false ∧
    (⟨"k1", 0, 0, "a", false⟩ : KeyRing).createOnSave = false ∧
    (Save (NewKeyRing "a" "x") 5
      (Except.ok (some (Json.obj [("results", Json.obj [])])))).1.createOnSave = false :=
  ⟨c6_pendingCreate_lifecycle.1 "a" "x",
   c6_pendingCreate_lifecycle.2.1 "a" "x"
     (Except.ok (some (Json.obj [("results", Json.obj [])]))) ⟨"x", 0, 0, "a", false⟩ rfl,
   c6_pendingCreate_lifecycle.2.2.1 "a"
     (Except.ok (some (Json.obj [("results", Json.obj [("k1", Json.obj [])])])))
     [⟨"k1", 0, 0, "a", false⟩] rfl ⟨"k1", 0, 0, "a", false⟩ (List.mem_singleton.mpr rfl),
   c6_pendingCreate_lifecycle.2.2.2 (NewKeyRing "a" "x") 5
     (Except.ok (some (Json.obj [("results", Json.obj [])]))) rfl⟩

/-- C7 counterexample: the envelope unwrap applied to the body whose
results object carries identifier x does not yield an entity with
identifier x — the `Identifier` field is excluded from JSON decoding,
so the target keeps its prior identifier. -/
theorem c7_unwrap_keeps_prior_identifier :
    (populateKeyRingFromResponse ⟨"y", 0, 0, "h", false⟩
      (some (Json.obj [("results",
        Json.obj [("identifier", Json.str "x"), ("createdAt", Json.num 1)])]))
      ["results"]).1.Identifier ≠ "x" := by decide

/-- C7 as amended: unwrap at the results key of the body whose results
object carries identifier x and createdAt one yields an entity with
createdAt one and the `Identifier` unchanged (it equals x exactly when
the target already carried x, as a proxy fetched under that name does);
unwrap of a body without the results key fails with the missing-key
error; and a descent step whose value is not an object fails with the
did-not-contain-map error. -/
theorem c7_envelope_unwrap_amended :
    (∀ k : KeyRing,
      populateKeyRingFromResponse k
        (some (Json.obj [("results",
          Json.obj [("identifier", Json.str "x"), ("createdAt", Json.num 1)])]))
        ["results"] = ({ k with CreatedAt := 1 }, none)) ∧
    (∀ k : KeyRing,
      populateKeyRingFromResponse k (some (Json.obj [("other", Json.obj [])])) ["results"] =
        (k, some "Response map did not contain expected key: results")) ∧
    (∀ (fields : List (String × Json)) (key : String) (rest : List String) (v : Json),
      mapGet fields key = some v → v.isObj = false →
      navigateResponse fields (key :: rest) =
        Except.error ("key " ++ key ++ " did not contain map")) ∧
    (∀ (k : KeyRing) (fields : List (String × Json)) (key : String) (rest : List String)
        (v : Json), mapGet fields key = some v → v.isObj = false →
      populateKeyRingFromResponse k (some (Json.obj fields)) (key :: rest) =
        (k, some ("key " ++ key ++ " did not contain map"))) := by
  refine ⟨fun k => rfl, fun k => rfl, navigateResponse_notMap, ?_⟩
  intro k fields key rest v hv hno
  exact populate_of_navigate_error k fields (key :: rest) _
    (navigateResponse_notMap fields key rest v hv hno)

/-- Witness for the amended C7 at concrete bodies. -/
theorem c7_envelope_unwrap_amended_witness :
    populateKeyRingFromResponse zeroKeyRing
      (some (Json.obj [("results",
        Json.obj [("identifier", Json.str "x"), ("createdAt", Json.num 1)])]))
      ["results"] = ({ zeroKeyRing with CreatedAt := 1 }, none) ∧
    populateKeyRingFromResponse zeroKeyRing
      (some (Json.obj [("other", Json.obj [])])) ["results"] =
      (zeroKeyRing, some "Response map did not contain expected key: results") ∧
    navigateResponse [("results", Json.num 7)] ["results"] =
      Except.error ("key " ++ "results" ++ " did not contain map") ∧
    populateKeyRingFromResponse zeroKeyRing
      (some (Json.obj [("results", Json.num 7)])) ["results"] =
      (zeroKeyRing, some ("key " ++ "results" ++ " did not contain map")) :=
  ⟨c7_envelope_unwrap_amended.1 zeroKeyRing,
   c7_envelope_unwrap_amended.2.1 zeroKeyRing,
   c7_envelope_unwrap_amended.2.2.1 [("results", Json.num 7)] "results" [] (Json.num 7)
     rfl rfl,
   c7_envelope_unwrap_amended.2.2.2 zeroKeyRing [("results", Json.num 7)] "results" []
     (Json.num 7) rfl rfl⟩

/-- C8: `DeleteKeyRing` applied to a transport success returns no error
exactly when the body is a JSON object whose results value is the
boolean true; a true acknowledgement succeeds, a false one fails, a
string one fails with the extraction error, and an absent one fails
with the missing-response error. -/
theorem c8_delete_results_boolean_true :
    (∀ (a i : String) (body : Option Json),
      DeleteKeyRing a i (Except.ok body) = none ↔
        ∃ fields, body = some (Json.obj fields) ∧
          mapGet fields "results" = some (Json.bool true)) ∧
    DeleteKeyRing "h" "i" (Except.ok (some (Json.obj [("results", Json.bool true)]))) =
      none ∧
    DeleteKeyRing "h" "i" (Except.ok (some (Json.obj [("results", Json.bool false)]))) =
      some "Delete of KeyRing at h/v1/keyring/i failed" ∧
    DeleteKeyRing "h" "i" (Except.ok (some (Json.obj [("results", Json.str "true")]))) =
      some "Unable to extract response object from h/v1/keyring/i" ∧
    DeleteKeyRing "h" "i" (Except.ok (some (Json.obj []))) =
      some "Missing response from h/v1/keyring/i" := by
  refine ⟨?_, rfl, rfl, rfl, rfl⟩
  intro a i body
  cases body with
  | none => simp [DeleteKeyRing, unmarshalToMap]
  | some j =>
    cases j with
    | null => simp [DeleteKeyRing, unmarshalToMap, mapGet]
    | bool b => simp [DeleteKeyRing, unmarshalToMap]
    | num q => simp [DeleteKeyRing, unmarshalToMap]
    | str s => simp [DeleteKeyRing, unmarshalToMap]
    | arr elems => simp [DeleteKeyRing, unmarshalToMap]
    | obj fields =>
      cases hm : mapGet fields "results" with
      | none => simp [DeleteKeyRing, unmarshalToMap, hm]
      | some v =>
        cases v with
        | null => simp [DeleteKeyRing, unmarshalToMap, hm]
        | bool b => cases b <;> simp [DeleteKeyRing, unmarshalToMap, hm]
        | num q => simp [DeleteKeyRing, unmarshalToMap, hm]
        | str s => simp [DeleteKeyRing, unmarshalToMap, hm]
        | arr elems => simp [DeleteKeyRing, unmarshalToMap, hm]
        | obj f => simp [DeleteKeyRing, unmarshalToMap, hm]

/-- C9 counterexample: serialising an entity and decoding the same
bytes into a fresh (zero-valued) entity does not recover the
identifier — the `Identifier` field carries the JSON tag that excludes
it from both directions, so the decoded entity has the empty
identifier. -/
theorem c9_roundtrip_drops_identifier :
    (unmarshalKeyRingInto (marshalKeyRing ⟨"x", 1, 2, "h", false⟩) zeroKeyRing).1.Identifier
      ≠ "x" := by decide

/-- C9 as amended: the serialise-then-decode round trip into a fresh
entity recovers both timestamps exactly and reports no error, but the
decoded identifier is the empty string (the `Identifier` field is
excluded from JSON), so it matches the original only when the original
identifier was empty. -/
theorem c9_roundtrip_timestamps_amended (k : KeyRing) :
    (unmarshalKeyRingInto (marshalKeyRing k) zeroKeyRing).1.CreatedAt = k.CreatedAt ∧
    (unmarshalKeyRingInto (marshalKeyRing k) zeroKeyRing).1.UpdatedAt = k.UpdatedAt ∧
    (unmarshalKeyRingInto (marshalKeyRing k) zeroKeyRing).1.Identifier = "" ∧
    (unmarshalKeyRingInto (marshalKeyRing k) zeroKeyRing).2 = none := by
  unfold marshalKeyRing
  by_cases h1 : k.CreatedAt = 0 <;> by_cases h2 : k.UpdatedAt = 0
  · rw [if_pos h1, if_pos h2]; exact ⟨h1.symm, h2.symm, rfl, rfl⟩
  · rw [if_pos h1, if_neg h2]; exact ⟨h1.symm, rfl, rfl, rfl⟩
  · rw [if_neg h1, if_pos h2]; exact ⟨rfl, h2.symm, rfl, rfl⟩
  · rw [if_neg h1, if_neg h2]; exact ⟨rfl, rfl, rfl, rfl⟩

/-- C10: the envelope unwrap never changes `Identifier` or
`axleAddress` of its target, whatever the body and the key path; hence
a successful `GetKeyRing` yields a proxy carrying the requested
identifier and the supplied address, whatever identifier the response
body carries. -/
theorem c10_identity_frame :
    (∀ (k : KeyRing) (body : Option Json) (loc : List String),
      (populateKeyRingFromResponse k body loc).1.Identifier = k.Identifier ∧
      (populateKeyRingFromResponse k body loc).1.axleAddress = k.axleAddress) ∧
    (∀ (a i : String) (hr : Except GoErr (Option Json)) (kr : KeyRing),
      GetKeyRing a i hr = Except.ok kr → kr.Identifier = i ∧ kr.axleAddress = a) := by
  constructor
  · intro k body loc
    exact ⟨(populateKeyRingFromResponse_frame k body loc).1,
      (populateKeyRingFromResponse_frame k body loc).2.1⟩
  · intro a i hr kr h
    unfold GetKeyRing at h
    split at h
    · exact Except.noConfusion h
    · split at h
      · exact Except.noConfusion h
      · next keyRing heq =>
          injection h with h2
          subst h2
          exact ⟨(populate_pair_frame heq).1, (populate_pair_frame heq).2.1⟩

/-- Witness for C10: a response carrying a foreign identifier does not
leak into the proxy. -/
theorem c10_identity_frame_witness :
    ((populateKeyRingFromResponse ⟨"y", 0, 0, "h", true⟩
        (some (Json.obj [("results", Json.obj [("identifier", Json.str "z")])]))
        ["results"]).1.Identifier = "y" ∧
     (populateKeyRingFromResponse ⟨"y", 0, 0, "h", true⟩
        (some (Json.obj [("results", Json.obj [("identifier", Json.str "z")])]))
        ["results"]).1.axleAddress = "h") ∧
    ((⟨"x", 0, 0, "a", false⟩ : KeyRing).Identifier = "x" ∧
     (⟨"x", 0, 0, "a", false⟩ : KeyRing).axleAddress = "a") :=
  ⟨c10_identity_frame.1 ⟨"y", 0, 0, "h", true⟩
      (some (Json.obj [("results", Json.obj [("identifier", Json.str "z")])])) ["results"],
   c10_identity_frame.2 "a" "x"
     (Except.ok (some (Json.obj [("results", Json.obj [("identifier", Json.str "z")])])))
     ⟨"x", 0, 0, "a", false⟩ rfl⟩

end GoAxle
